import Mathlib

/-!
Verification of the Debounced Cached Search Controller of this repository,
a shallow embedding of `src/src/interview-prep/hooks/useDebounce.js`
(the hooks `useDebounce` and `useDebouncedAPI`).

Two models are developed.

The first is a timed model of the `useDebounce` hook (lines 15-30 of
the source): each change of the input value cancels the pending
`setTimeout` handler and schedules a new one that fires `delay`
milliseconds later, emitting the value.  A call of `setQuery` that does
not change the value is a no-op: React bails out of a state update whose
value equals the current state, so the effect with dependency `[value,
delay]` does not re-run and the pending timer is left alone.  The effect
also runs on mount, so the model starts with a pending timer for the
initial value.

The second is an event model of the `useDebouncedAPI` hook (lines
174-266): the state holds the observable fields `data`, `loading`,
`error`, `query`, the derived `debouncedQuery`, the insertion-ordered
`cache` (a JS `Map` modelled as an association list), the
`abortController` ref (an operation token), and bookkeeping for the
launched lookup operations and the tokens that were aborted.  The
events are a change of the debounced query (which runs the effect
cleanup, aborting the current controller, and then `fetchData`), the
settlement (resolution or rejection) of a launched lookup promise, and
the caller operations `setQuery`, `clearCache` and `refetch`.  The
settlement events apply the continuation of the `await` in `fetchData`
exactly as written in the source: there is no validity check after the
`await`, and the `finally` block always runs.
-/

namespace RecipeBook

/-- Whitespace test used by the model of JS `String.prototype.trim`
(space, tab, line feed, carriage return, vertical tab, form feed). -/
def isJsWs (c : Char) : Bool :=
  c == ' ' || c == '\t' || c == '\n' || c == '\r' || c == '\x0b' || c == '\x0c'

/-- Model of JS `String.prototype.trim`: drop whitespace from both ends. -/
def jsTrim (s : String) : String :=
  String.mk (((s.data.dropWhile isJsWs).reverse.dropWhile isJsWs).reverse)

/-- State of the `useDebounce` hook: the current input value, the pending
`setTimeout` handler as a deadline together with the value it will emit,
and the list of emissions performed so far (each a time and a value,
corresponding to one `setDebouncedValue` call). -/
structure DebState where
  value : String
  pending : Option (Nat × String)
  emitted : List (Nat × String)
deriving DecidableEq, Repr

/-- Fire the pending timer if its deadline has been reached by time `t`. -/
def fireUpTo (t : Nat) (s : DebState) : DebState :=
  match s.pending with
  | some dv => if dv.1 ≤ t then { s with pending := none, emitted := s.emitted ++ [dv] } else s
  | none => s

/-- One `setQuery` call at time `c.1` with value `c.2`.  If the value is
unchanged, React bails out and the effect does not re-run, so nothing is
rescheduled; otherwise the effect cleanup clears the pending timeout and
a new one is scheduled `d` milliseconds later (source lines 18-27). -/
def debCall (d : Nat) (s : DebState) (c : Nat × String) : DebState :=
  let s1 := fireUpTo c.1 s
  if c.2 = s1.value then s1
  else { s1 with value := c.2, pending := some (c.1 + d, c.2) }

/-- Let the pending timer, if any, fire after all calls are done. -/
def debFlush (s : DebState) : DebState :=
  match s.pending with
  | some dv => { s with pending := none, emitted := s.emitted ++ [dv] }
  | none => s

/-- State right after mount: the effect has scheduled a timer that will
emit the initial value `v0` after `d` milliseconds. -/
def debInit (d : Nat) (v0 : String) : DebState :=
  { value := v0, pending := some (d, v0), emitted := [] }

/-- Run the `useDebounce` hook from mount with initial value `v0` over a
time-ordered list of `setQuery` calls, and let the last timer fire. -/
def runDebounce (d : Nat) (v0 : String) (calls : List (Nat × String)) : DebState :=
  debFlush (calls.foldl (debCall d) (debInit d v0))

/-- A burst relative to a previous call of value `pv` at time `pt`:
times strictly increase, each gap is smaller than the delay `d`, and
each call changes the value. -/
def burstB (d : Nat) (pv : String) (pt : Nat) : List (Nat × String) → Bool
  | [] => true
  | c :: rest => (decide (pt < c.1) && decide (c.1 < pt + d) && !(c.2 == pv)) && burstB d c.2 c.1 rest

/-- Last element of a list, with a default for the empty list. -/
def lastD (a : Nat × String) : List (Nat × String) → Nat × String
  | [] => a
  | b :: l => lastD b l

/-! ## The `useDebouncedAPI` hook (source lines 174-266)

The JS `Map` held in `cache.current` is modelled as an association list
in insertion order; `Map.set` updates a present key in place and
appends an absent one, `Map.delete` removes the entry of a key, and
the eviction in `addToCache` deletes the first key of the iteration
order, which for a JS `Map` is the insertion order, hence the head.
The result type of the injected `apiCall` is an opaque parameter `V`. -/

/-- JS `Map.has`. -/
def mapHas {V : Type} (k : String) (c : List (String × V)) : Bool :=
  c.any (fun p => p.1 == k)

/-- JS `Map.get` (absent keys give `none`). -/
def mapGet {V : Type} (k : String) (c : List (String × V)) : Option V :=
  (c.find? (fun p => p.1 == k)).map Prod.snd

/-- JS `Map.set`: update in place when the key is present, append otherwise. -/
def mapSet {V : Type} (c : List (String × V)) (k : String) (v : V) : List (String × V) :=
  if mapHas k c then c.map (fun p => if p.1 == k then (k, v) else p) else c ++ [(k, v)]

/-- JS `Map.delete`. -/
def mapDelete {V : Type} (k : String) (c : List (String × V)) : List (String × V) :=
  c.filter (fun p => !(p.1 == k))

/-- `cache.current.delete(cache.current.keys().next().value)`: remove the
first inserted entry; on an empty map the first key is `undefined` and
the delete is a no-op. -/
def mapEraseFirst {V : Type} (c : List (String × V)) : List (String × V) :=
  c.tail

/-- `addToCache` (source lines 186-192): when the current size has reached
`cacheSize`, delete the first key of the insertion order, then set. -/
def addToCache {V : Type} (cacheSize : Nat) (c : List (String × V)) (k : String) (v : V) :
    List (String × V) :=
  mapSet (if cacheSize ≤ c.length then mapEraseFirst c else c) k v

/-- A sequence of `addToCache` insertions starting from the empty cache. -/
def insertAll {V : Type} (cacheSize : Nat) (ks : List (String × V)) : List (String × V) :=
  ks.foldl (fun c p => addToCache cacheSize c p.1 p.2) []

/-- `controller.abort()` on the controller identified by token `c`:
the token joins the set of aborted tokens (idempotent, like setting
`signal.aborted`). -/
def markAborted (c : Option Nat) (ab : List Nat) : List Nat :=
  match c with
  | none => ab
  | some t => if t ∈ ab then ab else ab ++ [t]

/-- State of one `useDebouncedAPI` controller instance.  `data`,
`loading`, `error`, `query` are the `useState` fields; `debouncedQuery`
is the value delivered by the inner `useDebounce`; `cache` is
`cache.current`; `abortController` holds the token of the controller
currently stored in `abortController.current`; `nextToken` numbers the
controllers ever created; `ops` records every launched lookup as
(token, query), in order; `aborted` records the tokens whose `abort()`
was called. -/
structure APIState (V : Type) where
  data : Option V
  loading : Bool
  error : Option String
  query : String
  debouncedQuery : String
  cache : List (String × V)
  abortController : Option Nat
  nextToken : Nat
  ops : List (Nat × String)
  aborted : List Nat
deriving DecidableEq, Repr

/-- Events of one controller instance.  `debounced q` is the arrival of
a new debounced query (it runs the effect cleanup of the previous run
and then `fetchData`); `resolve`/`reject` are the settlement of the
promise of the lookup launched with the given token (the rejection
carries the `name` and `message` of the error, the message being empty
when absent); the remaining events are the caller operations. -/
inductive Event (V : Type) where
  | setQueryE (v : String)
  | debounced (q : String)
  | resolve (t : Nat) (v : V)
  | reject (t : Nat) (name : String) (msg : String)
  | clearCacheE
  | refetchE

/-- The body of `fetchData` (source lines 195-234) run with debounced
query `q`: the empty-query branch resets `data` and `loading` and
returns; the cache-hit branch serves `data` from the cache and returns;
the miss branch aborts the previous controller, stores a fresh one,
sets `loading` and clears `error`, and launches the lookup. -/
def fetchData {V : Type} (cacheSize : Nat) (q : String) (s : APIState V) : APIState V :=
  if jsTrim q = "" then { s with data := none, loading := false }
  else if mapHas q s.cache then { s with data := mapGet q s.cache, loading := false }
  else
    { s with aborted := markAborted s.abortController s.aborted,
             abortController := some s.nextToken,
             nextToken := s.nextToken + 1,
             loading := true,
             error := none,
             ops := s.ops ++ [(s.nextToken, q)] }

/-- One event step of the controller.

For `debounced q`: the effect has dependency `[debouncedQuery, apiCall,
addToCache]`, and React re-runs it only when a dependency changed, so a
delivery of the unchanged value does nothing; otherwise the cleanup of
the previous run aborts the current controller (source lines 239-243)
and `fetchData` runs.

For `resolve`/`reject`: the continuation after the `await` of the
lookup launched for token `t` runs exactly as written (source lines
218-233): on resolution, `setData(result)` and `addToCache` with the
query captured by that closure; on rejection, `setError` (with the
fallback text when the message is empty) and `setData(null)` unless the
error is named AbortError; in all cases the `finally` block sets
`loading` to false and nulls the controller ref.  No check that the
token is still current is performed anywhere.

For `refetchE` (source lines 250-254): the entry of the current
debounced query is deleted from the cache, and the two `setQuery`
functional updates leave `query` at `(query + ' ').trim()`. -/
def step {V : Type} (cacheSize : Nat) (s : APIState V) : Event V → APIState V
  | .setQueryE v => { s with query := v }
  | .debounced q =>
      if q = s.debouncedQuery then s
      else
        fetchData cacheSize q
          { s with debouncedQuery := q, aborted := markAborted s.abortController s.aborted }
  | .resolve t v =>
      match s.ops.find? (fun p => p.1 == t) with
      | none => s
      | some op =>
          { s with data := some v,
                   cache := addToCache cacheSize s.cache op.2 v,
                   loading := false,
                   abortController := none }
  | .reject t name msg =>
      match s.ops.find? (fun p => p.1 == t) with
      | none => s
      | some _ =>
          if name == "AbortError" then
            { s with loading := false, abortController := none }
          else
            { s with error := some (if msg = "" then "API call failed" else msg),
                     data := none,
                     loading := false,
                     abortController := none }
  | .clearCacheE => { s with cache := [] }
  | .refetchE =>
      { s with cache := mapDelete s.debouncedQuery s.cache,
               query := jsTrim (s.query ++ " ") }

/-- State after mount: every `useState` starts at its initial value and
the refs are fresh. -/
def initState (V : Type) : APIState V :=
  { data := none, loading := false, error := none, query := "", debouncedQuery := "",
    cache := [], abortController := none, nextToken := 0, ops := [], aborted := [] }

/-- Run the controller from mount over a list of events. -/
def runAPI {V : Type} (cacheSize : Nat) (events : List (Event V)) : APIState V :=
  events.foldl (step cacheSize) (initState V)

/-! ## Helper lemmas -/

theorem mapSet_cons_of_ne {V : Type} (p : String × V) (cs : List (String × V)) (k : String)
    (v : V) (hp : (p.1 == k) = false) : mapSet (p :: cs) k v = p :: mapSet cs k v := by
  have hcons : mapHas k (p :: cs) = mapHas k cs := by
    simp [mapHas, List.any_cons, hp]
  unfold mapSet
  rw [hcons]
  by_cases h : mapHas k cs = true
  · rw [if_pos h, if_pos h, List.map_cons]
    congr 1
    rw [if_neg (by simp [hp])]
  · rw [if_neg h, if_neg h, List.cons_append]

theorem mapGet_set_self {V : Type} (k : String) (v : V) :
    ∀ c : List (String × V), mapGet k (mapSet c k v) = some v := by
  intro c
  induction c with
  | nil =>
    unfold mapSet mapHas mapGet
    rw [if_neg (by simp)]
    rw [List.nil_append, List.find?_cons_of_pos _ (by simp)]
    rfl
  | cons p cs ih =>
    by_cases hp : (p.1 == k) = true
    · have hh : mapHas k (p :: cs) = true := by
        simp [mapHas, List.any_cons, hp]
      unfold mapSet
      rw [if_pos hh, List.map_cons, if_pos hp]
      unfold mapGet
      rw [List.find?_cons_of_pos _ (by simp)]
      rfl
    · have hp' : (p.1 == k) = false := by simpa using hp
      rw [mapSet_cons_of_ne p cs k v hp']
      unfold mapGet
      rw [List.find?_cons_of_neg _ (by simp [hp'])]
      exact ih

theorem mapHas_set_self {V : Type} (k : String) (v : V) (c : List (String × V)) :
    mapHas k (mapSet c k v) = true := by
  unfold mapSet
  by_cases h : mapHas k c = true
  · rw [if_pos h]
    obtain ⟨p, hp, hpk⟩ := List.any_eq_true.mp h
    refine List.any_eq_true.mpr ⟨(k, v), List.mem_map.mpr ⟨p, hp, ?_⟩, by simp⟩
    rw [if_pos hpk]
  · rw [if_neg h]
    exact List.any_eq_true.mpr ⟨(k, v), List.mem_append_right _ (List.mem_singleton.mpr rfl),
      by simp⟩

theorem mem_mapSet_of_ne {V : Type} (p : String × V) (c : List (String × V)) (k : String)
    (v : V) (hp : p ∈ c) (hne : (p.1 == k) = false) : p ∈ mapSet c k v := by
  unfold mapSet
  split
  · refine List.mem_map.mpr ⟨p, hp, ?_⟩
    rw [if_neg (by simp [hne])]
  · exact List.mem_append_left _ hp

theorem mapSet_length {V : Type} (c : List (String × V)) (k : String) (v : V) :
    (mapSet c k v).length = if mapHas k c then c.length else c.length + 1 := by
  simp only [mapSet]
  split <;> simp

theorem mapHas_tail_false {V : Type} (k : String) (c : List (String × V))
    (h : mapHas k c = false) : mapHas k (mapEraseFirst c) = false := by
  cases c with
  | nil => simpa [mapEraseFirst] using h
  | cons p cs =>
    simp only [mapHas, List.any_cons, Bool.or_eq_false_iff] at h
    simpa [mapEraseFirst, mapHas] using h.2

theorem addToCache_length_le {V : Type} (N : Nat) (hN : 1 ≤ N) (c : List (String × V))
    (k : String) (v : V) (h : c.length ≤ N) : (addToCache N c k v).length ≤ N := by
  have ht : (mapEraseFirst c).length = c.length - 1 := by
    simp [mapEraseFirst]
  unfold addToCache
  split
  · rw [mapSet_length]
    split <;> omega
  · rw [mapSet_length]
    rename_i hc
    split <;> omega

theorem foldl_addToCache_le {V : Type} (N : Nat) (hN : 1 ≤ N) :
    ∀ (ks : List (String × V)) (c : List (String × V)), c.length ≤ N →
      (ks.foldl (fun c p => addToCache N c p.1 p.2) c).length ≤ N := by
  intro ks
  induction ks with
  | nil => intro c h; simpa using h
  | cons p ps ih =>
    intro c h
    exact ih _ (addToCache_length_le N hN c p.1 p.2 h)

theorem mem_markAborted_self (t : Nat) (ab : List Nat) : t ∈ markAborted (some t) ab := by
  simp only [markAborted]
  split
  · assumption
  · exact List.mem_append_right _ (List.mem_singleton.mpr rfl)

theorem mem_markAborted (c : Option Nat) (t : Nat) (ab : List Nat) (h : t ∈ ab) :
    t ∈ markAborted c ab := by
  cases c with
  | none => exact h
  | some u =>
    simp only [markAborted]
    split
    · exact h
    · exact List.mem_append_left _ h

theorem step_debounced {V : Type} (cacheSize : Nat) (s : APIState V) (q : String)
    (h : q ≠ s.debouncedQuery) :
    step cacheSize s (.debounced q) =
      fetchData cacheSize q
        { s with debouncedQuery := q, aborted := markAborted s.abortController s.aborted } := by
  simp only [step]
  rw [if_neg h]

theorem fetchData_empty {V : Type} (cacheSize : Nat) (q : String) (s : APIState V)
    (he : jsTrim q = "") : fetchData cacheSize q s = { s with data := none, loading := false } := by
  simp only [fetchData]
  rw [if_pos he]

theorem fetchData_hit {V : Type} (cacheSize : Nat) (q : String) (s : APIState V)
    (he : ¬ jsTrim q = "") (hh : mapHas q s.cache = true) :
    fetchData cacheSize q s = { s with data := mapGet q s.cache, loading := false } := by
  simp only [fetchData]
  rw [if_neg he, if_pos hh]

theorem fetchData_miss {V : Type} (cacheSize : Nat) (q : String) (s : APIState V)
    (he : ¬ jsTrim q = "") (hh : mapHas q s.cache = false) :
    fetchData cacheSize q s =
      { s with aborted := markAborted s.abortController s.aborted,
               abortController := some s.nextToken,
               nextToken := s.nextToken + 1,
               loading := true,
               error := none,
               ops := s.ops ++ [(s.nextToken, q)] } := by
  simp only [fetchData]
  rw [if_neg he, if_neg (by simp [hh])]

theorem debounce_foldl_burst (d : Nat) :
    ∀ (rest : List (Nat × String)) (pv : String) (pt : Nat) (em : List (Nat × String)),
      burstB d pv pt rest = true →
      rest.foldl (debCall d) { value := pv, pending := some (pt + d, pv), emitted := em } =
        { value := (lastD (pt, pv) rest).2,
          pending := some ((lastD (pt, pv) rest).1 + d, (lastD (pt, pv) rest).2),
          emitted := em } := by
  intro rest
  induction rest with
  | nil => intro pv pt em _; rfl
  | cons c rs ih =>
    intro pv pt em hB
    simp only [burstB, Bool.and_eq_true, decide_eq_true_eq, Bool.not_eq_true',
      beq_eq_false_iff_ne, ne_eq] at hB
    obtain ⟨⟨⟨h1, h2⟩, h3⟩, h4⟩ := hB
    have hfire : ¬ (pt + d ≤ c.1) := Nat.not_le.mpr h2
    have hstep :
        debCall d { value := pv, pending := some (pt + d, pv), emitted := em } c =
          { value := c.2, pending := some (c.1 + d, c.2), emitted := em } := by
      simp only [debCall, fireUpTo, hfire, if_false, if_neg h3]
    simp only [List.foldl_cons, hstep, lastD]
    exact ih c.2 c.1 em h4

/-! ## The claims -/

/-- C2 (amended): for a finite sequence of `setQuery` calls at strictly
increasing times, each occurring less than `delayMs` after the previous
one and each changing the value, exactly one debounced emission results
from the burst, carrying the last value set.  Besides it, at most the
timer scheduled at mount (emitting the initial value before the burst
began) can appear in the emission list.  The original claim, quantified
over arbitrary call sequences, fails for bursts that repeat a value:
see the counterexample. -/
theorem debounce_coalesce (d : Nat) (v0 w0 : String) (t0 : Nat) (rest : List (Nat × String))
    (hw : w0 ≠ v0) (hB : burstB d w0 t0 rest = true) :
    ∃ pre, (runDebounce d v0 ((t0, w0) :: rest)).emitted =
        pre ++ [((lastD (t0, w0) rest).1 + d, (lastD (t0, w0) rest).2)] ∧
      (pre = [] ∨ (pre = [(d, v0)] ∧ d ≤ t0)) := by
  have hfold := debounce_foldl_burst d rest w0 t0
  by_cases hm : d ≤ t0
  · have hfirst :
        debCall d (debInit d v0) (t0, w0) =
          { value := w0, pending := some (t0 + d, w0), emitted := [(d, v0)] } := by
      simp only [debCall, debInit, fireUpTo, if_pos hm, if_neg hw]
      rfl
    refine ⟨[(d, v0)], ?_, Or.inr ⟨rfl, hm⟩⟩
    simp only [runDebounce, List.foldl_cons, hfirst, hfold [(d, v0)] hB, debFlush]
  · have hfirst :
        debCall d (debInit d v0) (t0, w0) =
          { value := w0, pending := some (t0 + d, w0), emitted := [] } := by
      simp only [debCall, debInit, fireUpTo, if_neg hm, if_neg hw]
    refine ⟨[], ?_, Or.inl rfl⟩
    simp only [runDebounce, List.foldl_cons, hfirst, hfold [] hB, debFlush]

theorem debounce_coalesce_witness :
    ∃ pre, (runDebounce 300 "" [(0, "a"), (50, "ap"), (100, "app")]).emitted =
        pre ++ [((lastD (0, "a") [(50, "ap"), (100, "app")]).1 + 300,
                 (lastD (0, "a") [(50, "ap"), (100, "app")]).2)] ∧
      (pre = [] ∨ (pre = [(300, "")] ∧ 300 ≤ 0)) :=
  debounce_coalesce 300 "" "a" 0 [(50, "ap"), (100, "app")] (by decide) (by decide)

/-- Counterexample to C2 as stated: with delay 300, the calls at times
0, 250, 500 all occur less than 300 ms after the previous one, yet the
burst produces two emissions, and the first carries "a", not the last
value.  The call at time 250 repeats the current value "a", so React
bails out of the state update, the effect does not re-run, and the
timer scheduled at time 0 survives and fires at time 300, in the middle
of the burst. -/
theorem debounce_coalesce_cex :
    (runDebounce 300 "" [(0, "a"), (250, "a"), (500, "b")]).emitted =
        [(300, "a"), (800, "b")] ∧
      250 - 0 < 300 ∧ 500 - 250 < 300 ∧
      ¬ (runDebounce 300 "" [(0, "a"), (250, "a"), (500, "b")]).emitted.length = 1 := by
  decide

/-- C1 (amended): starting a lookup for a new debounced query aborts the
previous operation's controller; if the superseded operation's promise
then settles with an AbortError rejection, neither Result nor Error is
mutated (though the `finally` block still sets Loading to false and
clears the controller ref).  The code performs no validity check at
settlement, however, so a superseded operation that resolves
successfully still overwrites Result and inserts into the cache: the
original claim that a cancelled operation mutates none of the
Result/Loading/Error state fails (see the counterexample). -/
theorem stale_settlement {V : Type} (cacheSize : Nat) (s : APIState V) (tA : Nat)
    (qA q : String) (v : V) (msg : String)
    (h1 : s.abortController = some tA)
    (h2 : q ≠ s.debouncedQuery)
    (h3 : s.ops.find? (fun p => p.1 == tA) = some (tA, qA)) :
    tA ∈ (step cacheSize s (.debounced q)).aborted ∧
    (step cacheSize s (.reject tA "AbortError" msg)).data = s.data ∧
    (step cacheSize s (.reject tA "AbortError" msg)).error = s.error ∧
    (step cacheSize s (.reject tA "AbortError" msg)).cache = s.cache ∧
    (step cacheSize s (.reject tA "AbortError" msg)).loading = false ∧
    (step cacheSize s (.resolve tA v)).data = some v ∧
    mapHas qA (step cacheSize s (.resolve tA v)).cache = true := by
  have hbase : tA ∈ markAborted s.abortController s.aborted := by
    rw [h1]
    exact mem_markAborted_self tA s.aborted
  have hrej : step cacheSize s (.reject tA "AbortError" msg) =
      { s with loading := false, abortController := none } := by
    simp only [step, h3]
    rw [if_pos (by rfl)]
  have hres : step cacheSize s (.resolve tA v) =
      { s with data := some v, cache := addToCache cacheSize s.cache qA v,
               loading := false, abortController := none } := by
    simp only [step, h3]
  refine ⟨?_, ?_, ?_, ?_, ?_, ?_, ?_⟩
  · rw [step_debounced cacheSize s q h2]
    unfold fetchData
    split
    · exact hbase
    · split
      · exact hbase
      · exact mem_markAborted _ _ _ hbase
  · rw [hrej]
  · rw [hrej]
  · rw [hrej]
  · rw [hrej]
  · rw [hres]
  · rw [hres]
    exact mapHas_set_self qA v _

theorem stale_settlement_witness :
    0 ∈ (step 10 (runAPI 10 ([Event.debounced "react"] : List (Event Nat)))
          (Event.debounced "vue")).aborted ∧
    (step 10 (runAPI 10 ([Event.debounced "react"] : List (Event Nat)))
        (Event.reject 0 "AbortError" "x")).data =
      (runAPI 10 ([Event.debounced "react"] : List (Event Nat))).data ∧
    (step 10 (runAPI 10 ([Event.debounced "react"] : List (Event Nat)))
        (Event.reject 0 "AbortError" "x")).error =
      (runAPI 10 ([Event.debounced "react"] : List (Event Nat))).error ∧
    (step 10 (runAPI 10 ([Event.debounced "react"] : List (Event Nat)))
        (Event.reject 0 "AbortError" "x")).cache =
      (runAPI 10 ([Event.debounced "react"] : List (Event Nat))).cache ∧
    (step 10 (runAPI 10 ([Event.debounced "react"] : List (Event Nat)))
        (Event.reject 0 "AbortError" "x")).loading = false ∧
    (step 10 (runAPI 10 ([Event.debounced "react"] : List (Event Nat)))
        (Event.resolve 0 7)).data = some 7 ∧
    mapHas "react" (step 10 (runAPI 10 ([Event.debounced "react"] : List (Event Nat)))
        (Event.resolve 0 7)).cache = true :=
  stale_settlement 10 (runAPI 10 ([Event.debounced "react"] : List (Event Nat)))
    0 "react" "vue" 7 "x" (by decide) (by decide) (by decide)

/-- Counterexample to C1 as stated: a lookup for "react" is in flight,
the debounced query changes to "vue" (which aborts "react"'s
controller, token 0), and then "react"'s promise resolves (the injected
function need not honour the abort signal).  The continuation runs with
no validity check: Result becomes "react"'s value, the result is
cached, and Loading is forced to false while "vue" is still in flight,
so the state does not reflect only "vue"'s outcome. -/
theorem stale_discard_cex :
    (runAPI 10 ([Event.debounced "react", Event.debounced "vue"] : List (Event Nat))).data =
        none ∧
    (runAPI 10 ([Event.debounced "react", Event.debounced "vue"] : List (Event Nat))).loading =
        true ∧
    (0 : Nat) ∈ (runAPI 10 ([Event.debounced "react", Event.debounced "vue",
        Event.resolve 0 7] : List (Event Nat))).aborted ∧
    (runAPI 10 ([Event.debounced "react", Event.debounced "vue",
        Event.resolve 0 7] : List (Event Nat))).data = some 7 ∧
    (runAPI 10 ([Event.debounced "react", Event.debounced "vue",
        Event.resolve 0 7] : List (Event Nat))).loading = false ∧
    (runAPI 10 ([Event.debounced "react", Event.debounced "vue",
        Event.resolve 0 7] : List (Event Nat))).cache = [("react", 7)] := by
  decide

/-- C3 (amended): for every configured capacity N with N at least 1,
every sequence of insertions keeps the cache at no more than N entries
(each intermediate cache is `insertAll` of a prefix, and the bound holds
for every sequence, hence at all times), a full cache evicts exactly its
oldest entry (the head of the insertion order) when a fresh key is
inserted, and with capacity 2 inserting "a", "b", "c" leaves exactly
the entries for "b" and "c".  The original claim, quantified over every
configured capacity, fails at capacity 0: see the counterexample. -/
theorem fifo_eviction {V : Type} (N : Nat) (ks : List (String × V)) (c : List (String × V))
    (k : String) (v va vb vc : V) (hN : 1 ≤ N) :
    (insertAll N ks).length ≤ N ∧
    (c.length = N → mapHas k c = false →
      addToCache N c k v = mapEraseFirst c ++ [(k, v)]) ∧
    insertAll 2 [("a", va), ("b", vb), ("c", vc)] = [("b", vb), ("c", vc)] := by
  refine ⟨foldl_addToCache_le N hN ks [] (by simp), ?_, rfl⟩
  intro hlen hhas
  unfold addToCache
  rw [if_pos (by omega)]
  unfold mapSet
  rw [if_neg (by simp [mapHas_tail_false k c hhas])]

theorem fifo_eviction_witness :
    (insertAll 2 [("a", (0 : Nat)), ("b", 1), ("c", 2)]).length ≤ 2 ∧
    addToCache 2 [("x", (9 : Nat)), ("y", 8)] "z" 7 =
      mapEraseFirst [("x", (9 : Nat)), ("y", 8)] ++ [("z", 7)] ∧
    insertAll 2 [("a", (3 : Nat)), ("b", 4), ("c", 5)] = [("b", 4), ("c", 5)] :=
  ⟨(fifo_eviction 2 [("a", (0 : Nat)), ("b", 1), ("c", 2)] [("x", (9 : Nat)), ("y", 8)]
      "z" 7 3 4 5 (by decide)).1,
   (fifo_eviction 2 [("a", (0 : Nat)), ("b", 1), ("c", 2)] [("x", (9 : Nat)), ("y", 8)]
      "z" 7 3 4 5 (by decide)).2.1 (by decide) (by decide),
   (fifo_eviction 2 [("a", (0 : Nat)), ("b", 1), ("c", 2)] [("x", (9 : Nat)), ("y", 8)]
      "z" 7 3 4 5 (by decide)).2.2⟩

/-- Counterexample to C3 as stated: with configured capacity 0, the
first insertion deletes the first key of an empty map (a no-op) and
then inserts, so the cache holds 1 entry, exceeding the claimed bound
of at most 0 entries at all times. -/
theorem fifo_bound_cex :
    (insertAll 0 [("a", (0 : Nat))]).length = 1 ∧
    ¬ (insertAll 0 [("a", (0 : Nat))]).length ≤ 0 := by
  decide

/-- C4 (amended): a settled rejection leaves the cache and the launched
operations untouched and sets Loading to false; when the rejection is
not named AbortError, Error is set to the rejection reason's message,
with the fallback text "API call failed" when the message is empty (so
not always verbatim: see the counterexample), and Result is reset;
when the rejection is named AbortError, Result and Error are left
unchanged.  The rejection is consumed by the catch block, never
escaping to the caller: every rejection event yields a defined next
state. -/
theorem lookup_failure {V : Type} (cacheSize : Nat) (s : APIState V) (t : Nat)
    (name msg : String) (h : (s.ops.find? (fun p => p.1 == t)).isSome = true) :
    (step cacheSize s (.reject t name msg)).error =
        (if (name == "AbortError") = true then s.error
         else some (if msg = "" then "API call failed" else msg)) ∧
    (step cacheSize s (.reject t name msg)).data =
        (if (name == "AbortError") = true then s.data else none) ∧
    (step cacheSize s (.reject t name msg)).cache = s.cache ∧
    (step cacheSize s (.reject t name msg)).loading = false ∧
    (step cacheSize s (.reject t name msg)).ops = s.ops := by
  obtain ⟨op, hop⟩ := Option.isSome_iff_exists.mp h
  simp only [step, hop]
  by_cases hn : (name == "AbortError") = true
  · rw [if_pos hn, if_pos hn, if_pos hn]
    exact ⟨rfl, rfl, rfl, rfl, rfl⟩
  · rw [if_neg hn, if_neg hn, if_neg hn]
    exact ⟨rfl, rfl, rfl, rfl, rfl⟩

theorem lookup_failure_witness :
    (step 10 (runAPI 10 ([Event.debounced "a"] : List (Event Nat)))
        (Event.reject 0 "Error" "network down")).error =
      (if (("Error" : String) == "AbortError") = true then
          (runAPI 10 ([Event.debounced "a"] : List (Event Nat))).error
        else some (if ("network down" : String) = "" then "API call failed"
          else "network down")) ∧
    (step 10 (runAPI 10 ([Event.debounced "a"] : List (Event Nat)))
        (Event.reject 0 "Error" "network down")).data =
      (if (("Error" : String) == "AbortError") = true then
          (runAPI 10 ([Event.debounced "a"] : List (Event Nat))).data
        else none) ∧
    (step 10 (runAPI 10 ([Event.debounced "a"] : List (Event Nat)))
        (Event.reject 0 "Error" "network down")).cache =
      (runAPI 10 ([Event.debounced "a"] : List (Event Nat))).cache ∧
    (step 10 (runAPI 10 ([Event.debounced "a"] : List (Event Nat)))
        (Event.reject 0 "Error" "network down")).loading = false ∧
    (step 10 (runAPI 10 ([Event.debounced "a"] : List (Event Nat)))
        (Event.reject 0 "Error" "network down")).ops =
      (runAPI 10 ([Event.debounced "a"] : List (Event Nat))).ops :=
  lookup_failure 10 (runAPI 10 ([Event.debounced "a"] : List (Event Nat)))
    0 "Error" "network down" (by decide)

/-- Counterexample to C4 as stated: a non-superseded lookup rejecting
with an empty message (for example `new Error("")`) does not surface
the reason verbatim: `err.message || 'API call failed'` replaces the
empty message by the fallback text. -/
theorem lookup_failure_cex :
    (runAPI 10 ([Event.debounced "a", Event.reject 0 "Error" ""] : List (Event Nat))).error =
        some "API call failed" ∧
    some "API call failed" ≠ (some "" : Option String) := by
  decide

/-- C5 (amended): a debounced query change to a non-blank key that is
present in the cache is served from the cache: Result is set to the
cached value, Loading becomes false, and no lookup is launched (the
operation list and the cache are unchanged).  A successful lookup does
insert its key into the cache.  The proviso that the key is still
present is necessary: capacity eviction (or `clearCache`/`refetch`) can
remove it, after which the same query hits the network again — see the
counterexample. -/
theorem cache_hit_no_network {V : Type} (cacheSize : Nat) (s : APIState V) (k : String)
    (t : Nat) (qA : String) (v : V)
    (h1 : k ≠ s.debouncedQuery) (h2 : ¬ jsTrim k = "") (h3 : mapHas k s.cache = true)
    (h4 : s.ops.find? (fun p => p.1 == t) = some (t, qA)) :
    (step cacheSize s (.debounced k)).data = mapGet k s.cache ∧
    (step cacheSize s (.debounced k)).loading = false ∧
    (step cacheSize s (.debounced k)).ops = s.ops ∧
    (step cacheSize s (.debounced k)).cache = s.cache ∧
    mapHas qA (step cacheSize s (.resolve t v)).cache = true := by
  rw [step_debounced cacheSize s k h1]
  rw [fetchData_hit cacheSize k
    { s with debouncedQuery := k, aborted := markAborted s.abortController s.aborted } h2 h3]
  refine ⟨rfl, rfl, rfl, rfl, ?_⟩
  simp only [step, h4]
  exact mapHas_set_self qA v _

theorem cache_hit_no_network_witness :
    (step 10 (runAPI 10 ([Event.debounced "a", Event.resolve 0 5, Event.debounced "b",
        Event.resolve 1 6] : List (Event Nat))) (Event.debounced "a")).data =
      mapGet "a" (runAPI 10 ([Event.debounced "a", Event.resolve 0 5, Event.debounced "b",
        Event.resolve 1 6] : List (Event Nat))).cache ∧
    (step 10 (runAPI 10 ([Event.debounced "a", Event.resolve 0 5, Event.debounced "b",
        Event.resolve 1 6] : List (Event Nat))) (Event.debounced "a")).loading = false ∧
    (step 10 (runAPI 10 ([Event.debounced "a", Event.resolve 0 5, Event.debounced "b",
        Event.resolve 1 6] : List (Event Nat))) (Event.debounced "a")).ops =
      (runAPI 10 ([Event.debounced "a", Event.resolve 0 5, Event.debounced "b",
        Event.resolve 1 6] : List (Event Nat))).ops ∧
    (step 10 (runAPI 10 ([Event.debounced "a", Event.resolve 0 5, Event.debounced "b",
        Event.resolve 1 6] : List (Event Nat))) (Event.debounced "a")).cache =
      (runAPI 10 ([Event.debounced "a", Event.resolve 0 5, Event.debounced "b",
        Event.resolve 1 6] : List (Event Nat))).cache ∧
    mapHas "a" (step 10 (runAPI 10 ([Event.debounced "a", Event.resolve 0 5,
        Event.debounced "b", Event.resolve 1 6] : List (Event Nat)))
        (Event.resolve 0 9)).cache = true :=
  cache_hit_no_network 10 (runAPI 10 ([Event.debounced "a", Event.resolve 0 5,
      Event.debounced "b", Event.resolve 1 6] : List (Event Nat)))
    "a" 0 "a" 9 (by decide) (by decide) (by decide) (by decide)

/-- Counterexample to C5 as stated: with capacity 1, the successful
lookup for "b" evicts "a"'s entry, so the later debounced query "a"
misses the cache and the injected lookup function is invoked a second
time for "a" (the operation list records two launches for "a"),
contradicting the claim that every later debounced query equal to a
previously fetched key is served without a new invocation. -/
theorem cache_hit_cex :
    (runAPI 1 ([Event.debounced "a", Event.resolve 0 5, Event.debounced "b",
        Event.resolve 1 6, Event.debounced "a"] : List (Event Nat))).ops =
      [(0, "a"), (1, "b"), (2, "a")] ∧
    ((runAPI 1 ([Event.debounced "a", Event.resolve 0 5, Event.debounced "b",
        Event.resolve 1 6, Event.debounced "a"] : List (Event Nat))).ops.filter
      (fun p => p.2 == "a")).length = 2 ∧
    (runAPI 1 ([Event.debounced "a", Event.resolve 0 5, Event.debounced "b",
        Event.resolve 1 6] : List (Event Nat))).cache = [("b", 6)] := by
  decide

/-- C6 (amended): a debounced change to an empty or blank query sets
Result to absent and Loading to false, performs no lookup invocation
and no cache interaction, but leaves Error unchanged rather than
clearing it: an error from a previously failed lookup survives the
empty-query short-circuit (see the counterexample). -/
theorem empty_query_short_circuit {V : Type} (cacheSize : Nat) (s : APIState V) (q : String)
    (h1 : q ≠ s.debouncedQuery) (h2 : jsTrim q = "") :
    (step cacheSize s (.debounced q)).data = none ∧
    (step cacheSize s (.debounced q)).loading = false ∧
    (step cacheSize s (.debounced q)).error = s.error ∧
    (step cacheSize s (.debounced q)).cache = s.cache ∧
    (step cacheSize s (.debounced q)).ops = s.ops := by
  rw [step_debounced cacheSize s q h1]
  rw [fetchData_empty cacheSize q
    { s with debouncedQuery := q, aborted := markAborted s.abortController s.aborted } h2]
  exact ⟨rfl, rfl, rfl, rfl, rfl⟩

theorem empty_query_short_circuit_witness :
    (step 10 (runAPI 10 ([Event.debounced "a"] : List (Event Nat)))
        (Event.debounced "")).data = none ∧
    (step 10 (runAPI 10 ([Event.debounced "a"] : List (Event Nat)))
        (Event.debounced "")).loading = false ∧
    (step 10 (runAPI 10 ([Event.debounced "a"] : List (Event Nat)))
        (Event.debounced "")).error =
      (runAPI 10 ([Event.debounced "a"] : List (Event Nat))).error ∧
    (step 10 (runAPI 10 ([Event.debounced "a"] : List (Event Nat)))
        (Event.debounced "")).cache =
      (runAPI 10 ([Event.debounced "a"] : List (Event Nat))).cache ∧
    (step 10 (runAPI 10 ([Event.debounced "a"] : List (Event Nat)))
        (Event.debounced "")).ops =
      (runAPI 10 ([Event.debounced "a"] : List (Event Nat))).ops :=
  empty_query_short_circuit 10 (runAPI 10 ([Event.debounced "a"] : List (Event Nat)))
    "" (by decide) (by decide)

/-- Counterexample to C6 as stated: after a failed lookup for "a"
(Error = "boom"), the debounced empty query yields Result absent and
Loading false, but Error is still "boom", not absent: the empty-query
branch returns before any `setError` call. -/
theorem empty_query_cex :
    (runAPI 10 ([Event.debounced "a", Event.reject 0 "Error" "boom",
        Event.debounced ""] : List (Event Nat))).data = none ∧
    (runAPI 10 ([Event.debounced "a", Event.reject 0 "Error" "boom",
        Event.debounced ""] : List (Event Nat))).loading = false ∧
    (runAPI 10 ([Event.debounced "a", Event.reject 0 "Error" "boom",
        Event.debounced ""] : List (Event Nat))).error = some "boom" ∧
    some "boom" ≠ (none : Option String) := by
  decide

/-- C7: the code of `refetch` contradicts its own `// Force re-fetch`
comment.  It deletes the current debounced query's cache entry, but the
two functional `setQuery` updates net to `(query + ' ').trim()`, which
for a query with no surrounding whitespace equals the current query;
React bails out of a state update to an equal value, so the
`useDebounce` effect (dependency `[value, delay]`) does not re-run — no
timer is scheduled, the debounced query never changes, and the lookup
effect (dependency `[debouncedQuery, ...]`) never re-fires.  In the
trace below, after `refetch` the cache entry is gone, the query is
unchanged, and the operation list still records a single lookup — no
fresh lookup for "pizza" is triggered; the final conjunct shows the
debounce stage schedules nothing for a call carrying the unchanged
value. -/
theorem refetch_no_retrigger :
    (runAPI 10 ([Event.setQueryE "pizza", Event.debounced "pizza", Event.resolve 0 7,
        Event.refetchE] : List (Event Nat))).cache = [] ∧
    (runAPI 10 ([Event.setQueryE "pizza", Event.debounced "pizza", Event.resolve 0 7,
        Event.refetchE] : List (Event Nat))).query = "pizza" ∧
    (runAPI 10 ([Event.setQueryE "pizza", Event.debounced "pizza", Event.resolve 0 7,
        Event.refetchE] : List (Event Nat))).debouncedQuery = "pizza" ∧
    (runAPI 10 ([Event.setQueryE "pizza", Event.debounced "pizza", Event.resolve 0 7,
        Event.refetchE] : List (Event Nat))).ops = [(0, "pizza")] ∧
    debCall 300 { value := "pizza", pending := none, emitted := [] } (1000, "pizza") =
      { value := "pizza", pending := none, emitted := [] } := by
  decide

/-- C8 (amended): on a debounced change to a non-blank query, Error is
cleared exactly when the query misses the cache (the `setError(null)`
at lookup issuance); a cache-hit submission returns before any
`setError` call and leaves Error unchanged, and a successful completion
does not itself mutate Error.  The original claim that every non-empty
submission (hit or miss) and every successful completion clears Error
fails: see the counterexample. -/
theorem error_clearing {V : Type} (cacheSize : Nat) (s : APIState V) (q : String)
    (t : Nat) (v : V)
    (h1 : q ≠ s.debouncedQuery) (h2 : ¬ jsTrim q = "")
    (h3 : (s.ops.find? (fun p => p.1 == t)).isSome = true) :
    (step cacheSize s (.debounced q)).error =
        (if mapHas q s.cache = true then s.error else none) ∧
    (step cacheSize s (.resolve t v)).error = s.error := by
  obtain ⟨op, hop⟩ := Option.isSome_iff_exists.mp h3
  refine ⟨?_, by simp only [step, hop]⟩
  rw [step_debounced cacheSize s q h1]
  by_cases hh : mapHas q s.cache = true
  · rw [fetchData_hit cacheSize q
      { s with debouncedQuery := q, aborted := markAborted s.abortController s.aborted } h2 hh,
      if_pos hh]
  · rw [fetchData_miss cacheSize q
      { s with debouncedQuery := q, aborted := markAborted s.abortController s.aborted } h2
      (by simpa using hh),
      if_neg hh]

theorem error_clearing_witness :
    (step 10 (runAPI 10 ([Event.debounced "a", Event.resolve 0 5] : List (Event Nat)))
        (Event.debounced "b")).error =
      (if mapHas "b" (runAPI 10 ([Event.debounced "a",
          Event.resolve 0 5] : List (Event Nat))).cache = true then
        (runAPI 10 ([Event.debounced "a", Event.resolve 0 5] : List (Event Nat))).error
       else none) ∧
    (step 10 (runAPI 10 ([Event.debounced "a", Event.resolve 0 5] : List (Event Nat)))
        (Event.resolve 0 9)).error =
      (runAPI 10 ([Event.debounced "a", Event.resolve 0 5] : List (Event Nat))).error :=
  error_clearing 10 (runAPI 10 ([Event.debounced "a", Event.resolve 0 5] : List (Event Nat)))
    "b" 0 9 (by decide) (by decide) (by decide)

/-- Counterexample to C8 as stated.  First run: "a" succeeds and is
cached, "b" fails (Error = "boom"), then the debounced query returns to
"a": a cache hit serves the result but Error remains "boom" — a new
non-empty submission did not clear it.  Second run: while a stale
rejection has set Error = "x", the fresh lookup for "b" completes
successfully, yet Error remains "x" — a successful completion does not
clear it either. -/
theorem error_clearing_cex :
    (runAPI 2 ([Event.debounced "a", Event.resolve 0 5, Event.debounced "b",
        Event.reject 1 "Error" "boom", Event.debounced "a"] : List (Event Nat))).error =
      some "boom" ∧
    (runAPI 2 ([Event.debounced "a", Event.resolve 0 5, Event.debounced "b",
        Event.reject 1 "Error" "boom", Event.debounced "a"] : List (Event Nat))).data =
      some 5 ∧
    (runAPI 2 ([Event.debounced "a", Event.debounced "b", Event.reject 0 "Error" "x",
        Event.resolve 1 5] : List (Event Nat))).error = some "x" ∧
    (runAPI 2 ([Event.debounced "a", Event.debounced "b", Event.reject 0 "Error" "x",
        Event.resolve 1 5] : List (Event Nat))).data = some 5 := by
  decide

/-- C9 (confirmed): `clearCache` empties the cache and changes nothing
else: Result, Loading, Error, the query values, the controller ref, the
launched operations and the aborted tokens are all untouched, so no
in-flight operation is cancelled or otherwise affected. -/
theorem clearCache_frame {V : Type} (cacheSize : Nat) (s : APIState V) :
    (step cacheSize s .clearCacheE).cache = [] ∧
    (step cacheSize s .clearCacheE).data = s.data ∧
    (step cacheSize s .clearCacheE).loading = s.loading ∧
    (step cacheSize s .clearCacheE).error = s.error ∧
    (step cacheSize s .clearCacheE).query = s.query ∧
    (step cacheSize s .clearCacheE).debouncedQuery = s.debouncedQuery ∧
    (step cacheSize s .clearCacheE).abortController = s.abortController ∧
    (step cacheSize s .clearCacheE).nextToken = s.nextToken ∧
    (step cacheSize s .clearCacheE).ops = s.ops ∧
    (step cacheSize s .clearCacheE).aborted = s.aborted :=
  ⟨rfl, rfl, rfl, rfl, rfl, rfl, rfl, rfl, rfl, rfl⟩

/-- C10 (confirmed): one `addToCache` call evicts at most one existing
entry — only the head of the insertion order can be removed, every
other entry not equal to the inserted key survives, and the size
changes by at most one in either direction — and then unconditionally
inserts the given key.  With capacity 0 the controller still holds one
cache entry after its first successful lookup, and the at-most-N bound
is guaranteed whenever N is at least 1. -/
theorem addToCache_bounds {V : Type} (N : Nat) (c : List (String × V)) (k : String) (v : V) :
    mapGet k (addToCache N c k v) = some v ∧
    (addToCache N c k v).length ≤ c.length + 1 ∧
    c.length ≤ (addToCache N c k v).length + 1 ∧
    (∀ p ∈ mapEraseFirst c, (p.1 == k) = false → p ∈ addToCache N c k v) ∧
    (runAPI 0 ([Event.debounced "a", Event.resolve 0 0] : List (Event Nat))).cache.length =
      1 ∧
    (1 ≤ N → c.length ≤ N → (addToCache N c k v).length ≤ N) := by
  have ht : (mapEraseFirst c).length = c.length - 1 := by
    simp [mapEraseFirst]
  refine ⟨mapGet_set_self k v _, ?_, ?_, ?_, by decide, fun hN h => addToCache_length_le N hN c k v h⟩
  · unfold addToCache
    split
    · rw [mapSet_length]
      split <;> omega
    · rw [mapSet_length]
      split <;> omega
  · unfold addToCache
    split
    · rw [mapSet_length]
      split <;> omega
    · rw [mapSet_length]
      split <;> omega
  · intro p hp hne
    unfold addToCache
    split
    · exact mem_mapSet_of_ne p _ k v hp hne
    · exact mem_mapSet_of_ne p _ k v (List.mem_of_mem_tail hp) hne

theorem addToCache_bounds_witness :
    mapGet "y" (addToCache 2 [("x", (0 : Nat)), ("w", 1)] "y" 5) = some 5 ∧
    ("w", (1 : Nat)) ∈ addToCache 2 [("x", (0 : Nat)), ("w", 1)] "y" 5 ∧
    (addToCache 2 [("x", (0 : Nat)), ("w", 1)] "y" 5).length ≤ 2 :=
  ⟨(addToCache_bounds 2 [("x", (0 : Nat)), ("w", 1)] "y" 5).1,
   (addToCache_bounds 2 [("x", (0 : Nat)), ("w", 1)] "y" 5).2.2.2.1 ("w", 1)
     (by decide) (by decide),
   (addToCache_bounds 2 [("x", (0 : Nat)), ("w", 1)] "y" 5).2.2.2.2.2
     (by decide) (by decide)⟩

end RecipeBook
